import Mathlib

/-!
Verification of the invoicing / payment reconciliation subsystem of the
EduVerse backend (`main.py`, `schemas.py`).

Python floats are modelled as exact rationals (`ℚ`); every concrete amount
appearing below (`1e-2`, `99.99`, …) is exactly representable at the scale
used, and the float comparisons of the source coincide with the rational
ones on all inputs considered.  Mongo documents are modelled as typed
records; a collection is a list of stored documents tagged with their
`_id` (ObjectId rendered as its hex string).
-/

namespace EduVerse

/-- Line item of an invoice (`schemas.InvoiceItem`): `title : str`, `amount : float`. -/
structure InvoiceItem where
  title : String
  amount : ℚ
deriving DecidableEq, Repr

/-- Invoice document (`schemas.Invoice`).  `status` is one of the strings
"unpaid", "partially_paid", "paid" (a `Literal` in the source). -/
structure Invoice where
  institution_id : String
  student_id : String
  currency : String
  items : List InvoiceItem
  gst_percent : ℚ
  status : String
  due_date : Option String
  metadata : List (String × String)
deriving DecidableEq, Repr

/-- Payment document (`schemas.Payment`). -/
structure Payment where
  institution_id : String
  invoice_id : String
  amount : ℚ
  method : String
  provider : Option String
  txn_ref : Option String
deriving DecidableEq, Repr

/-- A document as persisted in a Mongo collection: the record plus its
store-generated `_id` (hex string of the ObjectId). -/
structure Stored (α : Type) where
  oid : String
  doc : α
deriving DecidableEq, Repr

/-- The document store visible to `record_payment` / `create_invoice`:
the `invoice` and `payment` collections, a counter from which fresh ids
are minted, and the `db is not None` availability flag of `main.py`. -/
structure Store where
  available : Bool
  invoices : List (Stored Invoice)
  payments : List (Stored Payment)
  nextOid : Nat
deriving DecidableEq, Repr

/-- Modelled from the spec: `create_document(collection, payload)` of
`database.py` (a repository file not present under `src/`), the Repository
collaborator's `insert(collection, record) -> id`: appends the record to
the collection and returns a store-generated unique string identifier. -/
def create_document {α : Type} (coll : List (Stored α)) (payload : α) (nextOid : Nat) :
    List (Stored α) × String × Nat :=
  let oid := toString nextOid
  (coll ++ [⟨oid, payload⟩], oid, nextOid + 1)

/-- Hex digit test used by ObjectId string validation. -/
def isHexChar (c : Char) : Bool :=
  c.isDigit || (('a' ≤ c) && (c ≤ 'f')) || (('A' ≤ c) && (c ≤ 'F'))

/-- `bson.objectid.ObjectId(id_str)` (external library consumed by
`to_oid`, `main.py` lines 25-29) accepts exactly the 24-character hex
strings; `to_oid` turns a failure into an HTTP 400 "Invalid id". -/
def isValidObjectId (s : String) : Bool :=
  s.length == 24 && s.toList.all isHexChar

/-- Error surfaced to the HTTP caller (`fastapi.HTTPException`). -/
inductive ApiError where
  | http (status : Nat) (detail : String)
deriving DecidableEq, Repr

/-- Request body of `POST /payments` (`RecordPaymentRequest`, `main.py`
lines 181-187). -/
structure RecordPaymentRequest where
  institution_id : String
  invoice_id : String
  amount : ℚ
  method : String
  provider : Option String
  txn_ref : Option String
deriving DecidableEq, Repr

/-- Request body of `POST /invoices` (`CreateInvoiceRequest`, `main.py`
lines 152-158).  It has no `status` field: a client cannot supply one. -/
structure CreateInvoiceRequest where
  institution_id : String
  student_id : String
  items : List InvoiceItem
  gst_percent : ℚ
  currency : Option String
  due_date : Option String
deriving DecidableEq, Repr

/-- The `Payment(...)` constructed at `main.py` lines 191-198. -/
def mkPayment (req : RecordPaymentRequest) : Payment :=
  { institution_id := req.institution_id
    invoice_id := req.invoice_id
    amount := req.amount
    method := req.method
    provider := req.provider
    txn_ref := req.txn_ref }

/-- The `Invoice(...)` constructed at `main.py` lines 162-170.
`payload.currency or "INR"` maps `None` and the empty string to `"INR"`. -/
def mkInvoice (req : CreateInvoiceRequest) : Invoice :=
  { institution_id := req.institution_id
    student_id := req.student_id
    currency := match req.currency with
      | none => "INR"
      | some c => if c = "" then "INR" else c
    items := req.items
    gst_percent := req.gst_percent
    status := "unpaid"
    due_date := req.due_date
    metadata := [] }

/-- The status recomputation inlined at `main.py` lines 204-208, abstracted
over the invoice found and the payments returned by
`db["payment"].find({"invoice_id": ...})`; `1e-2` is the tolerance. -/
def recompute_status (inv : Invoice) (pays : List Payment) : String :=
  let paid_total := (pays.map Payment.amount).sum
  let items_total := (inv.items.map InvoiceItem.amount).sum
  let gst := inv.gst_percent * items_total / 100
  let due := items_total + gst
  if due - 1/100 ≤ paid_total then "paid"
  else if 0 < paid_total then "partially_paid"
  else "unpaid"

/-- `sum(item.amount for item in invoice.items)`. -/
def items_total (inv : Invoice) : ℚ := (inv.items.map InvoiceItem.amount).sum

/-- `items_total + gst_percent * items_total / 100`, the amount due. -/
def amount_due (inv : Invoice) : ℚ :=
  items_total inv + inv.gst_percent * items_total inv / 100

/-- Total of a list of payment amounts. -/
def paid_total (pays : List Payment) : ℚ := (pays.map Payment.amount).sum

/-- The tolerance ε of the settlement comparison. -/
def epsilon : ℚ := 1/100

/-- The settlement algorithm exactly as §4.1 of the spec words it:
`items_total` the sum of item amounts, `tax_amount = gst_percent *
items_total / 100`, `amount_due = items_total + tax_amount`, `amount_paid`
the sum of payment amounts, then first match of `amount_paid ≥ amount_due
- ε → paid`, `amount_paid > 0 → partially_paid`, otherwise `unpaid`. -/
def spec_settlement (inv : Invoice) (all_payments_for_invoice : List Payment) : String :=
  let spec_items_total := (inv.items.map InvoiceItem.amount).sum
  let tax_amount := inv.gst_percent * spec_items_total / 100
  let due_amount := spec_items_total + tax_amount
  let amount_paid := (all_payments_for_invoice.map Payment.amount).sum
  if due_amount - epsilon ≤ amount_paid then "paid"
  else if 0 < amount_paid then "partially_paid"
  else "unpaid"

/-- `db["invoice"].update_one({"_id": oid}, {"$set": {"status": status}})`:
in-place update of the first document whose `_id` matches, setting only
the `status` field. -/
def update_invoice_status : List (Stored Invoice) → String → String → List (Stored Invoice)
  | [], _, _ => []
  | si :: rest, oid, status =>
    if si.oid == oid then { si with doc := { si.doc with status := status } } :: rest
    else si :: update_invoice_status rest oid status

/-- `record_payment` (`main.py` lines 189-210).  The Payment is persisted
first; then, if the db handle is available, `to_oid` parses the invoice id
(HTTP 400 on failure), the invoice is looked up by `_id` alone, and when
found the status is recomputed from all payments referencing the invoice
id and written back; a missing invoice is silently skipped. -/
def record_payment (st : Store) (req : RecordPaymentRequest) :
    Store × Except ApiError String :=
  let pay := mkPayment req
  let ins := create_document st.payments pay st.nextOid
  let pid := ins.2.1
  let st1 : Store := { st with payments := ins.1, nextOid := ins.2.2 }
  if st1.available then
    if isValidObjectId req.invoice_id then
      match st1.invoices.find? (fun si => si.oid == req.invoice_id) with
      | some si =>
        let allPays := (st1.payments.filter
          (fun p => p.doc.invoice_id == req.invoice_id)).map Stored.doc
        let status := recompute_status si.doc allPays
        ({ st1 with invoices := update_invoice_status st1.invoices req.invoice_id status },
          Except.ok pid)
      | none => (st1, Except.ok pid)
    else (st1, Except.error (ApiError.http 400 "Invalid id"))
  else (st1, Except.ok pid)

/-- `create_invoice` (`main.py` lines 160-172): builds the Invoice with
status `"unpaid"` and persists it, returning the new id. -/
def create_invoice (st : Store) (req : CreateInvoiceRequest) : Store × String :=
  let inv := mkInvoice req
  let ins := create_document st.invoices inv st.nextOid
  ({ st with invoices := ins.1, nextOid := ins.2.2 }, ins.2.1)

/-- Rank of a status string in the order unpaid → partially_paid → paid. -/
def statusRank (s : String) : Nat :=
  if s == "paid" then 2 else if s == "partially_paid" then 1 else 0

/-- Equality of all invoice fields except `status`. -/
def invoiceFrameEq (a b : Invoice) : Prop :=
  a.institution_id = b.institution_id ∧ a.student_id = b.student_id ∧
  a.currency = b.currency ∧ a.items = b.items ∧ a.gst_percent = b.gst_percent ∧
  a.due_date = b.due_date ∧ a.metadata = b.metadata

/-! Concrete fixtures used to exercise the development on closed inputs. -/

/-- A well-formed ObjectId hex string. -/
def oidA : String := "aaaaaaaaaaaaaaaaaaaaaaaa"

/-- A payment of the given amount against `oidA`. -/
def mkPay (amt : ℚ) : Payment :=
  { institution_id := "inst1", invoice_id := oidA, amount := amt
    method := "cash", provider := none, txn_ref := none }

/-- Invoice of §8's scenario: one item of 1000 at 18% GST, due 1180. -/
def invTuition : Invoice :=
  { institution_id := "inst1", student_id := "stu1", currency := "INR"
    items := [⟨"Tuition", 1000⟩], gst_percent := 18, status := "unpaid"
    due_date := none, metadata := [] }

/-- Invoice with amount due exactly 100.00 (one item of 100, 0% GST). -/
def inv100 : Invoice :=
  { institution_id := "inst1", student_id := "stu1", currency := "INR"
    items := [⟨"Fee", 100⟩], gst_percent := 0, status := "unpaid"
    due_date := none, metadata := [] }

/-- Invoice with an empty item list. -/
def invEmpty : Invoice :=
  { institution_id := "inst1", student_id := "stu1", currency := "INR"
    items := [], gst_percent := 0, status := "unpaid"
    due_date := none, metadata := [] }

/-- Invoice of a different institution (`inst-B`), due exactly 100. -/
def invB : Invoice :=
  { institution_id := "inst-B", student_id := "stu2", currency := "INR"
    items := [⟨"Fee", 100⟩], gst_percent := 0, status := "unpaid"
    due_date := none, metadata := [] }

/-- Store holding `invTuition` under `oidA`, no payments yet. -/
def c1Store : Store :=
  { available := true, invoices := [⟨oidA, invTuition⟩], payments := [], nextOid := 0 }

/-- `POST /payments` request of 500 against `oidA`. -/
def c1Req : RecordPaymentRequest :=
  { institution_id := "inst1", invoice_id := oidA, amount := 500
    method := "upi", provider := none, txn_ref := none }

/-- Store with an available db and no invoice at all. -/
def c3Store : Store :=
  { available := true, invoices := [], payments := [], nextOid := 0 }

/-- Payment request naming `oidA`, which `c3Store` does not contain. -/
def c3Req : RecordPaymentRequest :=
  { institution_id := "inst-A", invoice_id := oidA, amount := 50
    method := "cash", provider := none, txn_ref := none }

/-- Store whose only invoice belongs to institution `inst-B`. -/
def c3CrossStore : Store :=
  { available := true, invoices := [⟨oidA, invB⟩], payments := [], nextOid := 0 }

/-- Payment request issued for institution `inst-A` against `inst-B`'s invoice. -/
def c3CrossReq : RecordPaymentRequest :=
  { institution_id := "inst-A", invoice_id := oidA, amount := 100
    method := "cash", provider := none, txn_ref := none }

/-- Store holding `inv100` under `oidA`. -/
def c4Store : Store :=
  { available := true, invoices := [⟨oidA, inv100⟩], payments := [], nextOid := 0 }

/-- Payment request with a negative amount. -/
def c4Req : RecordPaymentRequest :=
  { institution_id := "inst1", invoice_id := oidA, amount := -5
    method := "cash", provider := none, txn_ref := none }

/-- Payment request with amount zero. -/
def c4wReq : RecordPaymentRequest :=
  { institution_id := "inst1", invoice_id := oidA, amount := 0
    method := "cash", provider := none, txn_ref := none }

/-- A single zero payment, legal against a zero-item invoice. -/
def c7Pays : List Payment := [mkPay 0]

/-- Store with an available db, used with a malformed invoice id. -/
def c10Store : Store :=
  { available := true, invoices := [⟨oidA, inv100⟩], payments := [], nextOid := 0 }

/-- Payment request whose invoice id is not a parseable ObjectId. -/
def c10Req : RecordPaymentRequest :=
  { institution_id := "inst1", invoice_id := "nope", amount := 10
    method := "cash", provider := none, txn_ref := none }

/-! Helper lemmas shared between the claim theorems. -/

theorem recompute_status_def (inv : Invoice) (pays : List Payment) :
    recompute_status inv pays =
      if amount_due inv - epsilon ≤ paid_total pays then "paid"
      else if 0 < paid_total pays then "partially_paid"
      else "unpaid" := rfl

theorem recompute_status_eq_spec_settlement (inv : Invoice) (pays : List Payment) :
    recompute_status inv pays = spec_settlement inv pays := rfl

theorem recompute_status_eq_paid_iff (inv : Invoice) (pays : List Payment) :
    recompute_status inv pays = "paid" ↔
      amount_due inv - epsilon ≤ paid_total pays := by
  rw [recompute_status_def]
  split_ifs with h1 h2
  · simp [h1]
  · simp [h1, h2]
  · simp [h1, h2]

theorem recompute_status_eq_mid_iff (inv : Invoice) (pays : List Payment) :
    recompute_status inv pays = "partially_paid" ↔
      ¬ (amount_due inv - epsilon ≤ paid_total pays) ∧ 0 < paid_total pays := by
  rw [recompute_status_def]
  split_ifs with h1 h2
  · simp [h1]
  · simp [h1, h2]
  · simp [h1, h2]

theorem find?_update_invoice_status (l : List (Stored Invoice)) (k s : String)
    (si : Stored Invoice) (h : l.find? (fun x => x.oid == k) = some si) :
    (update_invoice_status l k s).find? (fun x => x.oid == k)
      = some { si with doc := { si.doc with status := s } } := by
  induction l with
  | nil => simp at h
  | cons a rest ih =>
    by_cases ha : (a.oid == k) = true
    · rw [@List.find?_cons_of_pos _ (fun x => x.oid == k) a rest ha] at h
      injection h with h
      subst h
      simp only [update_invoice_status]
      rw [if_pos ha]
      exact @List.find?_cons_of_pos _ (fun x => x.oid == k)
        { a with doc := { a.doc with status := s } } rest ha
    · rw [@List.find?_cons_of_neg _ (fun x => x.oid == k) a rest ha] at h
      simp only [update_invoice_status]
      rw [if_neg ha]
      rw [@List.find?_cons_of_neg _ (fun x => x.oid == k) a (update_invoice_status rest k s) ha]
      exact ih h

theorem record_payment_payments_eq (st : Store) (req : RecordPaymentRequest) :
    (record_payment st req).1.payments
      = st.payments ++ [⟨toString st.nextOid, mkPayment req⟩] := by
  simp only [record_payment, create_document]
  split
  · split
    · split <;> rfl
    · rfl
  · rfl

theorem update_invoice_status_frame (l : List (Stored Invoice)) (k s : String) :
    List.Forall₂ (fun a b => a.oid = b.oid ∧ invoiceFrameEq a.doc b.doc)
      l (update_invoice_status l k s) := by
  induction l with
  | nil => exact List.Forall₂.nil
  | cons a rest ih =>
    simp only [update_invoice_status]
    by_cases ha : (a.oid == k) = true
    · rw [if_pos ha]
      refine List.Forall₂.cons ⟨rfl, rfl, rfl, rfl, rfl, rfl, rfl, rfl⟩ ?_
      exact List.forall₂_same.2 fun x _ => ⟨rfl, rfl, rfl, rfl, rfl, rfl, rfl, rfl⟩
    · rw [if_neg ha]
      exact List.Forall₂.cons ⟨rfl, rfl, rfl, rfl, rfl, rfl, rfl, rfl⟩ ih

theorem paid_total_le_of_subperm (p1 p2 : List Payment) (hsub : p1.Subperm p2)
    (hpos : ∀ p ∈ p2, 0 ≤ p.amount) : paid_total p1 ≤ paid_total p2 := by
  obtain ⟨l, hperm, hsl⟩ := hsub
  have h1 : paid_total p1 = (l.map Payment.amount).sum :=
    ((hperm.map Payment.amount).sum_eq).symm
  rw [paid_total, paid_total] at *
  rw [h1]
  refine List.Sublist.sum_le_sum (hsl.map Payment.amount) ?_
  intro a ha
  obtain ⟨p, hp, rfl⟩ := List.mem_map.1 ha
  exact hpos p hp

theorem paid_total_nonneg (pays : List Payment) (hpos : ∀ p ∈ pays, 0 ≤ p.amount) :
    0 ≤ paid_total pays := by
  refine List.sum_nonneg ?_
  intro a ha
  obtain ⟨p, hp, rfl⟩ := List.mem_map.1 ha
  exact hpos p hp

/-- C1: when `record_payment` finds the invoice referenced by the request, the
status it persists onto that invoice is exactly the spec §4.1 settlement
algorithm (`items_total`, `tax_amount = gst_percent * items_total / 100`,
`amount_due = items_total + tax_amount`, `amount_paid` the sum of all payment
amounts for the invoice, then first match of paid / partially_paid / unpaid
with ε = 0.01) applied to the invoice and the full post-write payment set
referencing its id. -/
theorem record_payment_status_matches_spec (st : Store) (req : RecordPaymentRequest)
    (si : Stored Invoice)
    (hav : st.available = true)
    (hvalid : isValidObjectId req.invoice_id = true)
    (hfind : st.invoices.find? (fun x => x.oid == req.invoice_id) = some si) :
    (record_payment st req).1.invoices.find? (fun x => x.oid == req.invoice_id)
      = some { si with doc := { si.doc with
                  status := spec_settlement si.doc
                              (((record_payment st req).1.payments.filter
                                  (fun p => p.doc.invoice_id == req.invoice_id)).map
                                Stored.doc) } } := by
  simp only [record_payment, create_document, hav, hvalid, if_true]
  simp only [hfind]
  rw [← recompute_status_eq_spec_settlement]
  exact find?_update_invoice_status st.invoices req.invoice_id _ si hfind

/-- Witness for C1: a concrete store with one invoice (due 1180.00) and a
payment of 500 recorded against it. -/
theorem record_payment_status_matches_spec_witness :
    c1Store.available = true ∧
    isValidObjectId c1Req.invoice_id = true ∧
    c1Store.invoices.find? (fun x => x.oid == c1Req.invoice_id)
      = some ⟨oidA, invTuition⟩ ∧
    (record_payment c1Store c1Req).1.invoices.find? (fun x => x.oid == c1Req.invoice_id)
      = some { (⟨oidA, invTuition⟩ : Stored Invoice) with
                 doc := { invTuition with
                            status := spec_settlement invTuition
                                        (((record_payment c1Store c1Req).1.payments.filter
                                            (fun p => p.doc.invoice_id == c1Req.invoice_id)).map
                                          Stored.doc) } } :=
  ⟨rfl, by decide, rfl,
   record_payment_status_matches_spec c1Store c1Req ⟨oidA, invTuition⟩ rfl (by decide) rfl⟩

/-- C2: the settlement computation is a pure function of the multiset of
payment amounts: two payment lists that are permutations of each other yield
the same status for the same invoice, and recomputation is deterministic. -/
theorem settlement_order_independent (inv : Invoice) (p1 p2 : List Payment)
    (h : p1.Perm p2) : recompute_status inv p1 = recompute_status inv p2 := by
  have hsum : paid_total p1 = paid_total p2 := (h.map Payment.amount).sum_eq
  rw [recompute_status_def, recompute_status_def, hsum]

/-- Witness for C2: payments of 500 and 680 recorded in either order. -/
theorem settlement_order_independent_witness :
    ([mkPay 500, mkPay 680].Perm [mkPay 680, mkPay 500]) ∧
    recompute_status invTuition [mkPay 500, mkPay 680]
      = recompute_status invTuition [mkPay 680, mkPay 500] :=
  ⟨List.Perm.swap (mkPay 680) (mkPay 500) [],
   settlement_order_independent invTuition _ _
     (List.Perm.swap (mkPay 680) (mkPay 500) [])⟩

/-- C5 counterexample: with amount due exactly 100.00, a cumulative paid total
of 99.99 does not yield "partially_paid" as the claim states: the source
comparison `paid_total >= due - 1e-2` is non-strict and 99.99 = 100 - 0.01,
so the status is already "paid". -/
theorem tolerance_boundary_counterexample :
    recompute_status inv100 [mkPay (9999/100)] = "paid" ∧
    recompute_status inv100 [mkPay (9999/100)] ≠ "partially_paid" := by
  have h : recompute_status inv100 [mkPay (9999/100)] = "paid" := by
    rw [recompute_status_eq_paid_iff]
    norm_num [amount_due, items_total, paid_total, epsilon, inv100, mkPay]
  refine ⟨h, ?_⟩
  rw [h]
  decide

/-- C5 amended: with amount due exactly 100.00, a paid total of 99.99 yields
"paid" (99.99 ≥ 100 − 0.01 holds with equality), a paid total of 99.995
yields "paid", and only totals strictly below 99.99 — e.g. 99.98 — yield
"partially_paid". -/
theorem tolerance_boundary_amended :
    recompute_status inv100 [mkPay (9999/100)] = "paid" ∧
    recompute_status inv100 [mkPay (19999/200)] = "paid" ∧
    recompute_status inv100 [mkPay (9998/100)] = "partially_paid" := by
  refine ⟨?_, ?_, ?_⟩
  · rw [recompute_status_eq_paid_iff]
    norm_num [amount_due, items_total, paid_total, epsilon, inv100, mkPay]
  · rw [recompute_status_eq_paid_iff]
    norm_num [amount_due, items_total, paid_total, epsilon, inv100, mkPay]
  · rw [recompute_status_eq_mid_iff]
    norm_num [amount_due, items_total, paid_total, epsilon, inv100, mkPay]

/-- C3 at the failing input: with the db available and no invoice stored under
the requested id, `record_payment` persists the Payment and returns its id
with no error whatsoever — the code never raises a NotFoundError; moreover
the invoice lookup ignores `institution_id`: a request issued for institution
`inst-A` finds the invoice belonging to `inst-B` and updates its status. -/
theorem record_payment_missing_invoice_silent :
    (record_payment c3Store c3Req).2 = Except.ok "0" ∧
    (record_payment c3Store c3Req).1.payments = [⟨"0", mkPayment c3Req⟩] ∧
    (record_payment c3CrossStore c3CrossReq).2 = Except.ok "0" ∧
    ((record_payment c3CrossStore c3CrossReq).1.invoices.map
        (fun si => si.doc.status)) = ["paid"] := by
  refine ⟨rfl, rfl, rfl, ?_⟩
  have e1 : (record_payment c3CrossStore c3CrossReq).1.invoices
      = update_invoice_status [⟨oidA, invB⟩] oidA
          (recompute_status invB [mkPayment c3CrossReq]) := rfl
  have e2 : recompute_status invB [mkPayment c3CrossReq] = "paid" := by
    rw [recompute_status_eq_paid_iff]
    norm_num [amount_due, items_total, paid_total, epsilon, invB, mkPayment, c3CrossReq]
  rw [e1, e2]
  rfl

/-- C4 counterexample: a payment with amount -5 is not rejected: no
ValidationError exists, the Payment is persisted with its negative amount,
and the call succeeds returning the payment id. -/
theorem record_payment_negative_amount_persisted :
    (record_payment c4Store c4Req).2 = Except.ok "0" ∧
    ((record_payment c4Store c4Req).1.payments.map (fun p => p.doc.amount))
      = [-5] :=
  ⟨rfl, rfl⟩

/-- C4 amended: `record_payment` performs no amount validation at all; for any
request with amount ≤ 0 the Payment is persisted to the store regardless, and
the call fails only when the invoice id is not a parseable ObjectId (HTTP 400,
raised after the write) — otherwise it returns the payment id. -/
theorem record_payment_no_amount_validation (st : Store) (req : RecordPaymentRequest)
    (h : req.amount ≤ 0) :
    (record_payment st req).1.payments
      = st.payments ++ [⟨toString st.nextOid, mkPayment req⟩] ∧
    ((record_payment st req).2 = Except.ok (toString st.nextOid) ∨
     (record_payment st req).2 = Except.error (ApiError.http 400 "Invalid id")) := by
  refine ⟨record_payment_payments_eq st req, ?_⟩
  simp only [record_payment, create_document]
  split
  · split
    · split
      · exact Or.inl rfl
      · exact Or.inl rfl
    · exact Or.inr rfl
  · exact Or.inl rfl

/-- Witness for C4's amended claim at amount 0. -/
theorem record_payment_no_amount_validation_witness :
    c4wReq.amount ≤ 0 ∧
    ((record_payment c4Store c4wReq).1.payments
        = c4Store.payments ++ [⟨toString c4Store.nextOid, mkPayment c4wReq⟩] ∧
     ((record_payment c4Store c4wReq).2 = Except.ok (toString c4Store.nextOid) ∨
      (record_payment c4Store c4wReq).2
        = Except.error (ApiError.http 400 "Invalid id"))) :=
  ⟨le_refl 0, record_payment_no_amount_validation c4Store c4wReq (le_refl 0)⟩

/-- C6: settlement status never regresses along unpaid → partially_paid → paid
when the payment ledger grows to a superset with the same or larger total
(payment amounts being nonnegative, per the Payment model's `amount > 0`
invariant); an invoice that is "paid" stays "paid", and overpayment
(`amount_paid > amount_due`) still resolves to "paid". -/
theorem settlement_monotone_coverage (inv : Invoice) (p1 p2 : List Payment)
    (hsub : p1.Subperm p2) (hpos : ∀ p ∈ p2, 0 ≤ p.amount) :
    statusRank (recompute_status inv p1) ≤ statusRank (recompute_status inv p2) ∧
    (recompute_status inv p1 = "paid" → recompute_status inv p2 = "paid") ∧
    (amount_due inv < paid_total p2 → recompute_status inv p2 = "paid") := by
  have hle := paid_total_le_of_subperm p1 p2 hsub hpos
  have heps : (0:ℚ) < epsilon := by norm_num [epsilon]
  refine ⟨?_, ?_, ?_⟩
  · rw [recompute_status_def, recompute_status_def]
    split_ifs <;> simp [statusRank] <;> linarith
  · intro h
    rw [recompute_status_eq_paid_iff] at h ⊢
    linarith
  · intro h
    rw [recompute_status_eq_paid_iff]
    linarith

/-- Witness for C6: ledger [50] grows to [50, 60] on the 100.00-due invoice. -/
theorem settlement_monotone_coverage_witness :
    ([mkPay 50].Subperm [mkPay 50, mkPay 60]) ∧
    (∀ p ∈ [mkPay 50, mkPay 60], 0 ≤ p.amount) ∧
    (statusRank (recompute_status inv100 [mkPay 50])
        ≤ statusRank (recompute_status inv100 [mkPay 50, mkPay 60]) ∧
     (recompute_status inv100 [mkPay 50] = "paid" →
        recompute_status inv100 [mkPay 50, mkPay 60] = "paid") ∧
     (amount_due inv100 < paid_total [mkPay 50, mkPay 60] →
        recompute_status inv100 [mkPay 50, mkPay 60] = "paid")) := by
  have hsub : [mkPay 50].Subperm [mkPay 50, mkPay 60] :=
    ((List.nil_sublist [mkPay 60]).cons₂ (mkPay 50)).subperm
  have hpos : ∀ p ∈ [mkPay 50, mkPay 60], 0 ≤ p.amount := by
    intro p hp
    fin_cases hp <;> norm_num [mkPay]
  exact ⟨hsub, hpos, settlement_monotone_coverage inv100 _ _ hsub hpos⟩

/-- C7: an invoice with an empty item list has amount due 0 (the computation
divides only by the constant 100, so nothing crashes), and any ledger of
nonnegative payments — in particular any single recorded payment ≥ 0 —
settles it as "paid". -/
theorem zero_item_invoice_settles_paid (inv : Invoice) (h : inv.items = [])
    (pays : List Payment) (hpos : ∀ p ∈ pays, 0 ≤ p.amount) :
    amount_due inv = 0 ∧ recompute_status inv pays = "paid" := by
  have hdue : amount_due inv = 0 := by simp [amount_due, items_total, h]
  refine ⟨hdue, ?_⟩
  rw [recompute_status_eq_paid_iff, hdue]
  have hp := paid_total_nonneg pays hpos
  have heps : (0:ℚ) < epsilon := by norm_num [epsilon]
  linarith

/-- Witness for C7: the empty-items invoice with a single payment of 0. -/
theorem zero_item_invoice_settles_paid_witness :
    invEmpty.items = [] ∧ (∀ p ∈ c7Pays, 0 ≤ p.amount) ∧
    (amount_due invEmpty = 0 ∧ recompute_status invEmpty c7Pays = "paid") := by
  have hpos : ∀ p ∈ c7Pays, 0 ≤ p.amount := by
    intro p hp
    fin_cases hp <;> norm_num [mkPay]
  exact ⟨rfl, hpos, zero_item_invoice_settles_paid invEmpty rfl c7Pays hpos⟩

/-- C8: `create_invoice` persists the new invoice with status "unpaid"
unconditionally — the request type exposes no status field a client could
set, the items total plays no role, and no settlement recomputation happens
(the payment collection is untouched). -/
theorem create_invoice_status_unpaid (st : Store) (req : CreateInvoiceRequest) :
    (create_invoice st req).1.invoices
      = st.invoices ++ [⟨toString st.nextOid, mkInvoice req⟩] ∧
    (mkInvoice req).status = "unpaid" ∧
    (create_invoice st req).1.payments = st.payments :=
  ⟨rfl, rfl, rfl⟩

/-- C9: the status write of `record_payment` is a frame-preserving in-place
update: the invoice collection keeps the same documents in the same order
under the same ids, every invoice field except `status` is unchanged, and the
pre-existing payment documents are unchanged (the new ledger is the old one
plus the single appended Payment). -/
theorem record_payment_frame_effect (st : Store) (req : RecordPaymentRequest) :
    List.Forall₂ (fun a b => a.oid = b.oid ∧ invoiceFrameEq a.doc b.doc)
      st.invoices (record_payment st req).1.invoices ∧
    (record_payment st req).1.payments
      = st.payments ++ [⟨toString st.nextOid, mkPayment req⟩] := by
  refine ⟨?_, record_payment_payments_eq st req⟩
  simp only [record_payment, create_document]
  split
  · split
    · split
      · exact update_invoice_status_frame st.invoices req.invoice_id _
      · exact List.forall₂_same.2 fun x _ => ⟨rfl, rfl, rfl, rfl, rfl, rfl, rfl, rfl⟩
    · exact List.forall₂_same.2 fun x _ => ⟨rfl, rfl, rfl, rfl, rfl, rfl, rfl, rfl⟩
  · exact List.forall₂_same.2 fun x _ => ⟨rfl, rfl, rfl, rfl, rfl, rfl, rfl, rfl⟩

/-- C10: when the request's invoice id is not a parseable ObjectId and the db
is available, `record_payment` persists the Payment first and then fails with
HTTP 400 "Invalid id" from the invoice lookup: the caller gets a client error
and no payment id, yet the payment is durably recorded. -/
theorem record_payment_invalid_id_after_write (st : Store) (req : RecordPaymentRequest)
    (hav : st.available = true) (hbad : isValidObjectId req.invoice_id = false) :
    (record_payment st req).2 = Except.error (ApiError.http 400 "Invalid id") ∧
    (record_payment st req).1.payments
      = st.payments ++ [⟨toString st.nextOid, mkPayment req⟩] := by
  refine ⟨?_, record_payment_payments_eq st req⟩
  simp only [record_payment, create_document, hav, hbad, eq_self_iff_true, if_true,
    Bool.false_eq_true, if_false]

/-- Witness for C10: invoice id "nope" against an available store. -/
theorem record_payment_invalid_id_after_write_witness :
    c10Store.available = true ∧ isValidObjectId c10Req.invoice_id = false ∧
    ((record_payment c10Store c10Req).2
        = Except.error (ApiError.http 400 "Invalid id") ∧
     (record_payment c10Store c10Req).1.payments
        = c10Store.payments ++ [⟨toString c10Store.nextOid, mkPayment c10Req⟩]) :=
  ⟨rfl, by decide, record_payment_invalid_id_after_write c10Store c10Req rfl (by decide)⟩

end EduVerse
